import Mathlib

/-!
A verification development of the natural-language-to-appointment extraction
pipeline: prompt building, completion-client configuration and error
classification, tolerant JSON response extraction, appointment normalization,
and pipeline orchestration.

JavaScript platform primitives (the `Date` parser, `JSON.parse`, the wall
clock) are modelled as explicit parameters; instants are epoch milliseconds
(`Nat`), where the source stores their ISO-8601 rendering.  Thrown `Error`
values are modelled by their message strings, since downstream code inspects
only the message.
-/

namespace Nabiuh

/-- Truthiness of a JavaScript `string | null | undefined` value:
`null`/`undefined` and the empty string are falsy. -/
def jsTruthyS : Option String → Bool
  | some s => s != ""
  | none => false

/-- Truthiness of a JavaScript optional array's `?.length`:
truthy exactly when the array is present and non-empty. -/
def jsTruthyL : Option (List String) → Bool
  | some l => !l.isEmpty
  | none => false

/-- Truthiness of a JavaScript `number | null | undefined` value:
`null`/`undefined` and `0` are falsy. -/
def jsTruthyI : Option Int → Bool
  | some n => n != 0
  | none => false

/-- JavaScript `a || b` on a nullable string `a` with string default `b`. -/
def jsOrStrD (a : Option String) (d : String) : String :=
  if jsTruthyS a then a.getD "" else d

/-- JavaScript `a || b` on two nullable strings. -/
def jsOrOpt (a b : Option String) : Option String :=
  if jsTruthyS a then a else b

/-- Models `String.prototype.toLowerCase` (our keywords are ASCII or Arabic;
Arabic letters are fixed points of lowercasing on both platforms). -/
def jsLower (s : String) : String := String.mk (s.data.map Char.toLower)

/-- Models `s.slice(0, n)`: the first `n` characters. -/
def jsSlice (s : String) (n : Nat) : String := String.mk (s.data.take n)

/-- Models `s.trim()`: strip leading and trailing whitespace. -/
def jsTrim (s : String) : String :=
  String.mk
    (((s.data.dropWhile Char.isWhitespace).reverse.dropWhile Char.isWhitespace).reverse)

/-- Index of the first occurrence of `needle` as a contiguous run of `hay`. -/
def findInfixIdx (hay needle : List Char) : Option Nat :=
  match hay with
  | [] => if needle.isEmpty then some 0 else none
  | _ :: rest =>
    if needle.isPrefixOf hay then some 0
    else (findInfixIdx rest needle).map (· + 1)

/-- Models `haystack.includes(needle)`: substring containment. -/
def strIncludes (hay sub : String) : Bool := (findInfixIdx hay.data sub.data).isSome

/-- The raw appointment object produced by the remote service
(source: `type AtlasAppointment`); every field is untrusted and optional.
`null` and `undefined` are collapsed into `none`, as the source only ever
distinguishes them by truthiness or `??`, which treat them alike. -/
structure Recurrence where
  pattern : Option String := none
  every : Option Int := none
  days_of_week : Option (List String) := none
deriving DecidableEq

structure AtlasAppointment where
  type : Option String := none
  title : Option String := none
  date : Option String := none
  time : Option String := none
  end_time : Option String := none
  location : Option String := none
  person : Option String := none
  actions_before : Option (List String) := none
  actions_after : Option (List String) := none
  tags : Option (List String) := none
  reminder_minutes_before : Option Int := none
  recurrence : Option Recurrence := none
  notes : Option String := none
deriving DecidableEq

inductive Priority where
  | low | medium | high | critical
deriving DecidableEq

inductive Status where
  | scheduled | done | canceled
deriving DecidableEq

/-- The normalized draft handed to persistence (source: the return type of
`convertAtlasToAppointment`).  `start_at`/`end_at` are instants; the source
stores their ISO-8601 string rendering, a bijective change of representation. -/
structure AppointmentDraft where
  title : String
  description : Option String
  tag : Option String
  start_at : Nat
  end_at : Option Nat
  priority : Priority
  status : Status
  location : Option String
  reminder_minutes_before : Option Int
deriving DecidableEq

/-- Platform collaborators used by `convertAtlasToAppointment`:
`parseDate s` models `new Date(s)` (`none` ↔ `isNaN(d.getTime())`),
`now` models `new Date()` taken at entry, and `isoDateOfNow` models
`now.toISOString().slice(0, 10)`. -/
structure JsEnv where
  parseDate : String → Option Nat
  now : Nat
  isoDateOfNow : String

/-- Source: `mapTypeToPriority` (case-insensitive substring tests, in order). -/
def mapTypeToPriority (type : String) : Priority :=
  let t := jsLower type
  if strIncludes t "critical" then .critical
  else if strIncludes t "medical" || strIncludes t "medication" then .high
  else if strIncludes t "work" then .medium
  else if strIncludes t "personal" then .low
  else .medium

/-- The fixed medical keyword set of `isHospitalAppointment`. -/
def hospitalKeywords : List String :=
  ["مستشفى", "عيادة", "تحليل", "دواء", "مراجعة", "طبيب"]

/-- Source: `isHospitalAppointment` — the lowercased concatenation
`` `${title ?? ""} ${notes ?? ""} ${location ?? ""}` `` contains a medical
keyword, or the lowercased `type` contains `"medical"`. -/
def isHospitalAppointment (raw : AtlasAppointment) : Bool :=
  let text := jsLower
    (raw.title.getD "" ++ " " ++ raw.notes.getD "" ++ " " ++ raw.location.getD "")
  hospitalKeywords.any (fun k => strIncludes text k)
    || strIncludes (jsLower (raw.type.getD "")) "medical"

/-- Source: `raw.reminder_minutes_before ?? (hospital ? 120 : null)`. -/
def reminderValue (raw : AtlasAppointment) : Option Int :=
  match raw.reminder_minutes_before with
  | some v => some v
  | none => if isHospitalAppointment raw then some 120 else none

/-- The recurrence description sub-part (source lines pushing
`` `تكرار: ...` `` when the pattern is truthy and not `"none"`). -/
def recurrenceParts : Option Recurrence → List String
  | some rc =>
    if jsTruthyS rc.pattern && (rc.pattern.getD "" != "none") then
      let every :=
        if jsTruthyI rc.every then "كل " ++ toString (rc.every.getD 0) else "متكرر"
      let days :=
        match rc.days_of_week with
        | some ds =>
          if !ds.isEmpty then " (" ++ String.intercalate "," ds ++ ")" else ""
        | none => ""
      ["تكرار: " ++ rc.pattern.getD "" ++ " " ++ every ++ days]
    else []
  | none => []

/-- Description sub-parts pushed before the hospital block, in source order:
notes, person, pre-actions, post-actions, recurrence, tags. -/
def basicParts (raw : AtlasAppointment) : List String :=
  (if jsTruthyS raw.notes then [raw.notes.getD ""] else [])
    ++ (if jsTruthyS raw.person then ["مع: " ++ raw.person.getD ""] else [])
    ++ (if jsTruthyL raw.actions_before then
          ["قبل: " ++ String.intercalate " | " (raw.actions_before.getD [])] else [])
    ++ (if jsTruthyL raw.actions_after then
          ["بعد: " ++ String.intercalate " | " (raw.actions_after.getD [])] else [])
    ++ recurrenceParts raw.recurrence
    ++ (if jsTruthyL raw.tags then
          ["وسوم: " ++ String.intercalate ", " (raw.tags.getD [])] else [])

/-- The medical-suggestion sub-parts (source: the `if (hospital)` block). -/
def hospitalParts (raw : AtlasAppointment) (hospital : Bool) : List String :=
  if hospital then
    (if jsTruthyL raw.actions_before then []
     else ["اقتراح قبل الموعد: تحضير التحاليل أو الملفات الضرورية"])
      ++ (if jsTruthyL raw.actions_after then []
          else ["اقتراح بعد الموعد: تدوين الملاحظات والتعليمات الطبية"])
      ++ ["تنبيه مقترح: قبل 15 دقيقة على الأقل"]
  else []

/-- The final reminder sub-part (source: `if (reminder) parts.push(...)`,
a truthiness test, so a present `0` appends nothing). -/
def reminderParts (reminder : Option Int) : List String :=
  if jsTruthyI reminder then
    ["تذكير قبل: " ++ toString (reminder.getD 0) ++ " دقيقة"]
  else []

/-- All description sub-parts of one raw item, in the fixed source order. -/
def descriptionParts (raw : AtlasAppointment) : List String :=
  basicParts raw
    ++ hospitalParts raw (isHospitalAppointment raw)
    ++ reminderParts (reminderValue raw)

/-- Source: `convertAtlasToAppointment` — the appointment normalizer. -/
def convertAtlasToAppointment (env : JsEnv) (raw : AtlasAppointment) :
    AppointmentDraft :=
  let datePart := raw.date.getD env.isoDateOfNow
  let timePart := raw.time.getD "09:00"
  let start_at := (env.parseDate (datePart ++ "T" ++ timePart)).getD env.now
  let end_at : Option Nat :=
    match raw.end_time with
    | some et => if et != "" then env.parseDate (datePart ++ "T" ++ et) else none
    | none => none
  let joined := String.intercalate " | " (descriptionParts raw)
  { title := if jsTruthyS raw.title then raw.title.getD "" else "موعد بدون عنوان",
    description := if joined == "" then none else some joined,
    tag := raw.tags.bind List.head?,
    start_at := start_at,
    end_at := end_at,
    priority :=
      if isHospitalAppointment raw then .high
      else mapTypeToPriority (raw.type.getD ""),
    status := .scheduled,
    location := raw.location,
    reminder_minutes_before := reminderValue raw }

/-- A JSON value, the result of a successful platform `JSON.parse`. -/
inductive Json where
  | null
  | bool (b : Bool)
  | num (n : Int)
  | str (s : String)
  | arr (elems : List Json)
  | obj (fields : List (String × Json))

/-- Models `v?.k` property access: a lookup on objects, `undefined` otherwise. -/
def jsField (j : Json) (k : String) : Option Json :=
  match j with
  | .obj fs => (fs.find? (fun f => f.1 == k)).map (fun f => f.2)
  | _ => none

/-- Models `Array.isArray(x) ? x : []`. -/
def jsArrayOrEmpty : Option Json → List Json
  | some (.arr xs) => xs
  | _ => []

def backtickFence : List Char := "```".data

def openBraceChar : Char := '\x7b'

def closeBraceChar : Char := '\x7d'

/-- Does `cs` start with `json` case-insensitively (the optional fence tag)? -/
def matchesJsonTag (cs : List Char) : Bool :=
  (cs.take 4).map Char.toLower == "json".data

/-- One backtracking pass of the fence regex
`/(three backticks)(json)?\s*(lazy capture)(three backticks)/i`: at each
candidate opener, optionally consume the tag and whitespace, then capture
lazily up to the next closing fence; on failure resume after the opener. -/
def fenceInnerAux : Nat → List Char → Option (List Char)
  | 0, _ => none
  | fuel + 1, cs =>
    match findInfixIdx cs backtickFence with
    | none => none
    | some i =>
      let after := cs.drop (i + 3)
      let afterTag := if matchesJsonTag after then after.drop 4 else after
      let body := afterTag.dropWhile Char.isWhitespace
      match findInfixIdx body backtickFence with
      | some k => some (body.take k)
      | none => fenceInnerAux fuel (cs.drop (i + 1))

/-- The first fenced code block's inner content, if any
(source: `rawContent.match` against the fence pattern). -/
def fenceMatch (s : String) : Option String :=
  (fenceInnerAux (s.data.length + 1) s.data).map String.mk

/-- The first greedy brace-delimited span (source: `content.match` against
the greedy brace pattern): from the first opening brace to the last closing
brace, when the latter lies strictly after the former. -/
def braceMatch (s : String) : Option String :=
  let cs := s.data
  match findInfixIdx cs [openBraceChar], findInfixIdx cs.reverse [closeBraceChar] with
  | some i, some k =>
    let j := cs.length - 1 - k
    if i < j then some (String.mk ((cs.drop i).take (j - i + 1))) else none
  | _, _ => none

def unparseableMsg : String :=
  "تعذر قراءة JSON. يرجى إعادة المحاولة وإرجاع كائن appointments."

/-- Source: `extractAppointmentsJSON`.  `jsonParse` models the platform
`JSON.parse`; `.error m` models a thrown `SyntaxError` with message `m`.
Note the source's `return JSON.parse(braceMatch[0])` sits outside any
`try`, so a failure there propagates the parser's own error. -/
def extractAppointmentsJSON (jsonParse : String → Except String Json)
    (rawContent : String) : Except String Json :=
  let content := (fenceMatch rawContent).getD rawContent
  match jsonParse content with
  | .ok j => .ok j
  | .error _ =>
    match braceMatch content with
    | some sub => jsonParse sub
    | none => .error unparseableMsg

def configErrorMsg : String :=
  "مفتاح Atlas غير موجود. أضف VITE_ATLAS_API_KEY أو ATLAS_API_KEY."

def rateLimitMsg (text : String) : String :=
  "يرجى الانتظار قليلًا ثم إعادة المحاولة (429): " ++ text

def apiErrorMsg (status : Nat) (text : String) : String :=
  "Atlas API error: " ++ toString status ++ " " ++ text

def defaultAtlasUrl : String := "https://api.atlascloud.ai/v1/chat/completions"

/-- Source: `getEnvValue` —
`(viteEnv && viteEnv[key]) || (nodeEnv && nodeEnv[key]) || undefined`. -/
def getEnvValue (key : String)
    (viteEnv nodeEnv : Option (String → Option String)) : Option String :=
  jsOrOpt (viteEnv.bind (fun e => e key))
    (jsOrOpt (nodeEnv.bind (fun e => e key)) none)

/-- The endpoint URL resolution chain of `sendToAtlas` (four tiers then a
fixed default). -/
def resolveUrl (vite node : Option (String → Option String)) : String :=
  jsOrStrD (getEnvValue "VITE_ATLAS_API_URL" vite node)
    (jsOrStrD (getEnvValue "VITE_ATLASCLOUD_API_URL" vite node)
      (jsOrStrD (getEnvValue "ATLAS_API_URL" vite node)
        (jsOrStrD (getEnvValue "ATLASCLOUD_API_URL" vite node) defaultAtlasUrl)))

/-- The credential resolution chain of `sendToAtlas` (four tiers then `""`). -/
def resolveApiKey (vite node : Option (String → Option String)) : String :=
  jsOrStrD (getEnvValue "VITE_ATLAS_API_KEY" vite node)
    (jsOrStrD (getEnvValue "VITE_ATLASCLOUD_API_KEY" vite node)
      (jsOrStrD (getEnvValue "ATLAS_API_KEY" vite node)
        (jsOrStrD (getEnvValue "ATLASCLOUD_API_KEY" vite node) "")))

/-- Source: `const trimmedUserText = (userText || "").slice(0, 2000);`. -/
def trimmedUserText (userText : String) : String :=
  jsSlice (jsOrStrD (some userText) "") 2000

/-- The trimmed system prompt of `sendToAtlas` (braces written as escapes). -/
def systemPromptText : String :=
  "أنت مساعد عربي لتحويل النصوص إلى JSON مواعيد. أعد كائناً واحداً بهذه الصيغة:\n\x7b\n  \"appointments\": [\n    \x7b\n      \"type\": \"medical|medication|personal_event|work|other\",\n      \"title\": \"عنوان قصير\",\n      \"date\": \"YYYY-MM-DD\",\n      \"time\": \"HH:MM\",\n      \"end_time\": \"HH:MM أو null\",\n      \"location\": \"اختياري أو null\",\n      \"person\": \"اختياري أو null\",\n      \"actions_before\": [\"خطوة\", \"...\"],\n      \"actions_after\": [\"خطوة\", \"...\"],\n      \"tags\": [\"وسم1\", \"وسم2\"],\n      \"recurrence\": \x7b \"pattern\": \"none|daily|weekly|monthly|yearly\", \"every\": 1, \"days_of_week\": [\"sat\",\"sun\",\"mon\",\"tue\",\"wed\",\"thu\",\"fri\"] \x7d,\n      \"reminder_minutes_before\": 30,\n      \"notes\": \"اختياري أو null\"\n    \x7d\n  ]\n\x7d\nشروط:\n- إن لم تجد مواعيد أرجع \x7b\"appointments\": []\x7d.\n- لا تضع حقولاً فارغة؛ استخدم null أو [] عند الحاجة.\n- تأكد أن JSON صالح بالكامل دون نص زائد."

/-- The outbound request `sendToAtlas` builds once configuration resolves
(generation parameters that are floating-point literals are not modelled). -/
structure AtlasRequest where
  url : String
  model : String
  systemContent : String
  userContent : String
  maxTokens : Nat
  authBearer : String
deriving DecidableEq

/-- Configuration resolution and payload construction of `sendToAtlas`
(lines before the `fetch`): fails with the configuration error when no
credential resolves, otherwise produces the request. -/
def sendToAtlasRequest (vite node : Option (String → Option String))
    (userText : String) : Except String AtlasRequest :=
  let url := resolveUrl vite node
  let apiKey := resolveApiKey vite node
  if apiKey == "" then .error configErrorMsg
  else .ok { url := url, model := "openai/gpt-oss-20b",
             systemContent := systemPromptText,
             userContent := trimmedUserText userText,
             maxTokens := 256, authBearer := apiKey }

/-- One HTTP response: `status`, the body read as text on failure, and the
assistant content the platform JSON access yields on success
(`choices[0].message.content || choices[0].delta.content || null`). -/
structure HttpResponse where
  status : Nat
  bodyText : String
  assistantContent : Option String

/-- Response handling of `sendToAtlas` (`res.ok` is status 200–299): a 429
status or a case-insensitive body marker means the rate-limit error, any
other non-success status the generic API error. -/
def sendToAtlasResponse (resp : HttpResponse) : Except String (Option String) :=
  if ¬(200 ≤ resp.status ∧ resp.status ≤ 299) then
    let lowered := jsLower resp.bodyText
    if resp.status = 429 ∨ strIncludes lowered "too many requests" = true
        ∨ strIncludes lowered "only request this after" = true then
      .error (rateLimitMsg resp.bodyText)
    else
      .error (apiErrorMsg resp.status resp.bodyText)
  else .ok resp.assistantContent

/-- The whole of `sendToAtlas`, with the network round trip's response as an
explicit parameter: configuration first, then response classification. -/
def sendToAtlas (vite node : Option (String → Option String))
    (userText : String) (resp : HttpResponse) : Except String (Option String) :=
  match sendToAtlasRequest vite node userText with
  | .error e => .error e
  | .ok _ => sendToAtlasResponse resp

/-- Source: `isRateLimitError` (over the error's message string). -/
def isRateLimitError (msg : String) : Bool :=
  strIncludes msg "429" || strIncludes (jsLower msg) "too many requests"

/-- The outcome `handleAiSubmit` surfaces: the pre-network validation
message, a success count, or a failure with the `aiError` text and the
error-modal title and message. -/
inductive AiOutcome where
  | validationError (msg : String)
  | success (count : Nat)
  | failure (aiError : String) (modalTitle : String) (modalMsg : String)
deriving DecidableEq

def emptyInputMsg : String := "اكتب تفاصيل الموعد أولاً."

def noAppointmentsMsg : String := "لم يتم استخراج أي مواعيد."

def waitRetryAiError : String := "الرجاء الانتظار ثم المحاولة مجددًا (429)."

def waitRetryModalMsg : String := "تجاوزت الحد المسموح. الرجاء الانتظار ثم المحاولة."

def aiModalTitle : String := "تعذر إضافة الموعد آليًا"

/-- The `catch` block of `handleAiSubmit`: a rate-limit-looking message maps
to the wait-and-retry texts, anything else is surfaced verbatim. -/
def aiFailure (errMsg : String) : AiOutcome :=
  .failure (if isRateLimitError errMsg then waitRetryAiError else errMsg)
    aiModalTitle
    (if isRateLimitError errMsg then waitRetryModalMsg else errMsg)

/-- Source: `handleAiSubmit` — the pipeline orchestrator, with the network
round trip's result (`sendToAtlas`'s success content or thrown message) as an
explicit parameter.  Per-item conversion (`convertAtlasToAppointment`) and
sequential persistence are external to the surfaced outcome, which carries
the inserted count. -/
def handleAiSubmit (aiText : String)
    (net : Except String (Option String))
    (jsonParse : String → Except String Json) : AiOutcome :=
  if jsTrim aiText == "" then .validationError emptyInputMsg
  else
    match net with
    | .error e => aiFailure e
    | .ok assistant =>
      let parsed : Except String (Option Json) :=
        match assistant with
        | some content => (extractAppointmentsJSON jsonParse content).map some
        | none => .ok none
      match parsed with
      | .error e => aiFailure e
      | .ok p =>
        let appointmentsRaw := jsArrayOrEmpty (p.bind (fun j => jsField j "appointments"))
        if appointmentsRaw.isEmpty then aiFailure noAppointmentsMsg
        else .success appointmentsRaw.length

/-- The four credential locations, in consultation order. -/
def apiKeyNames : List String :=
  ["VITE_ATLAS_API_KEY", "VITE_ATLASCLOUD_API_KEY", "ATLAS_API_KEY", "ATLASCLOUD_API_KEY"]

/-- The four endpoint-URL locations, in consultation order. -/
def urlKeyNames : List String :=
  ["VITE_ATLAS_API_URL", "VITE_ATLASCLOUD_API_URL", "ATLAS_API_URL", "ATLASCLOUD_API_URL"]

/-- The first truthy value of an ordered list of nullable strings — the
specification's reading of an ordered `||` consultation chain. -/
def firstTruthy : List (Option String) → Option String
  | [] => none
  | a :: rest => if jsTruthyS a then a else firstTruthy rest

/-- A date parser recognising the two instants the concrete test items use. -/
def sampleParseDate : String → Option Nat := fun s =>
  if s == "2025-05-12T16:30" then some 1747067400000
  else if s == "2025-05-12T18:00" then some 1747072800000
  else none

/-- A concrete platform environment for concrete evaluations. -/
def sampleEnv : JsEnv :=
  { parseDate := sampleParseDate, now := 777, isoDateOfNow := "2025-01-01" }

/-- A raw item whose only populated optional field is the recurrence. -/
def rawRecurOnly : AtlasAppointment :=
  { recurrence :=
      some { pattern := some "weekly", every := some 2, days_of_week := some ["sat", "mon"] } }

/-- The specification's medical scenario item. -/
def rawMedical : AtlasAppointment :=
  { type := some "medical", title := some "فحص دوري", date := some "2025-05-12",
    time := some "16:30", end_time := some "18:00", location := some "عيادة الأسرة" }

/-- A non-medical item with every description source populated. -/
def rawFull : AtlasAppointment :=
  { type := some "work", title := some "اجتماع", notes := some "n", person := some "p",
    actions_before := some ["a"], actions_after := some ["b"],
    tags := some ["t1", "t2"], reminder_minutes_before := some 30,
    recurrence := some { pattern := some "weekly", every := some 2, days_of_week := some ["sat"] } }

/-- A raw item carrying a negative reminder lead. -/
def rawNegReminder : AtlasAppointment := { reminder_minutes_before := some (-5) }

/-- A medical raw item carrying an explicit zero reminder lead. -/
def rawMedicalZero : AtlasAppointment :=
  { title := some "مستشفى", reminder_minutes_before := some 0 }

/-- A node-style environment holding only the tertiary credential name. -/
def nodeEnvSample : String → Option String := fun k =>
  if k == "ATLAS_API_KEY" then some "sk-test" else none

/-- A vite-style environment holding only the primary credential name. -/
def viteEnvSample : String → Option String := fun k =>
  if k == "VITE_ATLAS_API_KEY" then some "vk" else none

/-- A platform `JSON.parse` stand-in that fails on every input, as the real
parser does on the non-JSON strings exercised below. -/
def jpAllFail : String → Except String Json := fun s =>
  .error ("SyntaxError: Unexpected token in " ++ s)

/-- A platform `JSON.parse` stand-in deciding exactly the empty-appointments
object, as the real parser does on that string. -/
def jpEmptyAppointments : String → Except String Json := fun s =>
  if s == "\x7b\"appointments\": []\x7d\n" then
    .ok (Json.obj [("appointments", Json.arr [])])
  else .error ("SyntaxError: Unexpected token in " ++ s)

/-- Head of an appended string's character data is the left operand's head. -/
theorem data_head_append (p s : String) (c : Char) (hc : p.data.head? = some c) :
    (p ++ s).data.head? = some c := by
  have h : (p ++ s).data = p.data ++ s.data := rfl
  rw [h]
  cases hp : p.data with
  | nil => simp [hp] at hc
  | cons a t =>
    rw [hp] at hc
    simpa using hc

/-- A string with a non-empty left append operand is non-empty. -/
theorem append_ne_empty_left (p s : String) (hp : p ≠ "") : p ++ s ≠ "" := by
  intro h
  apply hp
  have hd : p.data ++ s.data = ([] : List Char) := congrArg String.data h
  obtain ⟨d⟩ := p
  have h1 : d = [] := (List.append_eq_nil.mp hd).1
  subst h1
  rfl

/-- The accumulator of `String.intercalate.go` only ever grows. -/
theorem intercalate_go_length (s : String) (l : List String) (acc : String) :
    acc.length ≤ (String.intercalate.go acc s l).length := by
  induction l generalizing acc with
  | nil => exact Nat.le_refl _
  | cons a as ih =>
    have h1 : String.intercalate.go acc s (a :: as)
        = String.intercalate.go (acc ++ s ++ a) s as := rfl
    rw [h1]
    refine Nat.le_trans ?_ (ih (acc ++ s ++ a))
    simp only [String.length_append]
    omega

/-- Intercalating a non-empty list of non-empty strings is non-empty. -/
theorem intercalate_ne_empty (l : List String) (hl : l ≠ [])
    (h : ∀ p ∈ l, p ≠ "") : String.intercalate " | " l ≠ "" := by
  cases l with
  | nil => exact absurd rfl hl
  | cons a as =>
    intro hemp
    have h1 : String.intercalate " | " (a :: as) = String.intercalate.go a " | " as := rfl
    have h2 := intercalate_go_length " | " as a
    rw [← h1, hemp] at h2
    have ha : a ≠ "" := h a (by simp)
    apply ha
    obtain ⟨d⟩ := a
    have h3 : d.length = 0 := Nat.le_zero.mp h2
    have h4 : d = [] := List.length_eq_zero.mp h3
    subst h4
    rfl

/-- Membership in a conditional singleton forces the condition and value. -/
theorem mem_ite_singleton (c : Bool) (x p : String)
    (hp : p ∈ (if c = true then [x] else [])) : c = true ∧ p = x := by
  cases c <;> simp_all

/-- Every recurrence sub-part is a non-empty string. -/
theorem recurrenceParts_ne (r : Option Recurrence) (p : String)
    (hp : p ∈ recurrenceParts r) : p ≠ "" := by
  cases r with
  | none => simp [recurrenceParts] at hp
  | some rc =>
    by_cases h : (jsTruthyS rc.pattern && (rc.pattern.getD "" != "none")) = true
    · simp only [recurrenceParts, h, if_true, List.mem_singleton] at hp
      subst hp
      exact append_ne_empty_left _ _ (append_ne_empty_left _ _
        (append_ne_empty_left _ _
          (append_ne_empty_left "تكرار: " (rc.pattern.getD "") (by decide))))
    · simp [recurrenceParts, h] at hp

/-- Every basic description sub-part is a non-empty string. -/
theorem basicParts_ne (raw : AtlasAppointment) (p : String)
    (hp : p ∈ basicParts raw) : p ≠ "" := by
  simp only [basicParts, List.append_assoc, List.mem_append] at hp
  rcases hp with h1 | h2 | h3 | h4 | h5 | h6
  · obtain ⟨hc, hx⟩ := mem_ite_singleton _ _ _ h1
    subst hx
    cases hn : raw.notes with
    | none => rw [hn] at hc; simp [jsTruthyS] at hc
    | some v =>
      rw [hn] at hc
      simp only [jsTruthyS, bne_iff_ne, ne_eq, decide_eq_true_eq] at hc
      simpa [hn] using hc
  · obtain ⟨_, hx⟩ := mem_ite_singleton _ _ _ h2
    subst hx
    exact append_ne_empty_left _ _ (by decide)
  · obtain ⟨_, hx⟩ := mem_ite_singleton _ _ _ h3
    subst hx
    exact append_ne_empty_left _ _ (by decide)
  · obtain ⟨_, hx⟩ := mem_ite_singleton _ _ _ h4
    subst hx
    exact append_ne_empty_left _ _ (by decide)
  · exact recurrenceParts_ne _ _ h5
  · obtain ⟨_, hx⟩ := mem_ite_singleton _ _ _ h6
    subst hx
    exact append_ne_empty_left _ _ (by decide)

/-- Every medical-suggestion sub-part is a non-empty string. -/
theorem hospitalParts_ne (raw : AtlasAppointment) (b : Bool) (p : String)
    (hp : p ∈ hospitalParts raw b) : p ≠ "" := by
  cases b with
  | false => simp [hospitalParts] at hp
  | true =>
    simp only [hospitalParts, if_true, List.append_assoc, List.mem_append] at hp
    rcases hp with h1 | h2 | h3
    · by_cases hc : jsTruthyL raw.actions_before = true
      · simp [hc] at h1
      · simp [hc] at h1
        subst h1
        decide
    · by_cases hc : jsTruthyL raw.actions_after = true
      · simp [hc] at h2
      · simp [hc] at h2
        subst h2
        decide
    · simp only [List.mem_singleton] at h3
      subst h3
      decide

/-- Every reminder sub-part is a non-empty string. -/
theorem reminderParts_ne (r : Option Int) (p : String)
    (hp : p ∈ reminderParts r) : p ≠ "" := by
  by_cases h : jsTruthyI r = true
  · simp only [reminderParts, h, if_true, List.mem_singleton] at hp
    subst hp
    exact append_ne_empty_left _ _
      (append_ne_empty_left "تذكير قبل: " (toString (r.getD 0)) (by decide))
  · simp [reminderParts, h] at hp

/-- Every description sub-part of a raw item is a non-empty string. -/
theorem descriptionParts_ne (raw : AtlasAppointment) :
    ∀ p ∈ descriptionParts raw, p ≠ "" := by
  intro p hp
  simp only [descriptionParts, List.append_assoc, List.mem_append] at hp
  rcases hp with h1 | h2 | h3
  · exact basicParts_ne raw p h1
  · exact hospitalParts_ne raw _ p h2
  · exact reminderParts_ne _ p h3

/-- `isPrefixOf` is preserved by extending the larger list on the right. -/
theorem isPrefixOf_append_right (n : List Char) :
    ∀ (h t : List Char), n.isPrefixOf h = true → n.isPrefixOf (h ++ t) = true := by
  induction n with
  | nil => intro h t _; simp [List.isPrefixOf]
  | cons a as ih =>
    intro h t hp
    cases h with
    | nil => simp [List.isPrefixOf] at hp
    | cons b bs =>
      simp only [List.cons_append, List.isPrefixOf, Bool.and_eq_true] at hp ⊢
      exact ⟨hp.1, ih bs t hp.2⟩

/-- The empty needle occurs in every haystack. -/
theorem findInfixIdx_nil_needle (l : List Char) :
    (findInfixIdx l []).isSome = true := by
  cases l <;> simp [findInfixIdx, List.isPrefixOf]

/-- The defining equation of `findInfixIdx` on a non-empty haystack. -/
theorem findInfixIdx_cons (c : Char) (rest n : List Char) :
    findInfixIdx (c :: rest) n
      = if n.isPrefixOf (c :: rest) = true then some 0
        else (findInfixIdx rest n).map (· + 1) := rfl

/-- An occurrence survives extending the haystack on the right. -/
theorem findInfixIdx_append_isSome (h t n : List Char)
    (hs : (findInfixIdx h n).isSome = true) :
    (findInfixIdx (h ++ t) n).isSome = true := by
  induction h with
  | nil =>
    simp only [findInfixIdx] at hs
    by_cases hn : n.isEmpty = true
    · have h0 : n = [] := by cases n <;> simp_all
      subst h0
      exact findInfixIdx_nil_needle t
    · simp [hn] at hs
  | cons c rest ih =>
    show (findInfixIdx (c :: (rest ++ t)) n).isSome = true
    rw [findInfixIdx_cons]
    by_cases hpre2 : n.isPrefixOf (c :: (rest ++ t)) = true
    · rw [if_pos hpre2]
      rfl
    · rw [if_neg hpre2, Option.isSome_map']
      have hpre : ¬ n.isPrefixOf (c :: rest) = true := by
        intro hx
        have := isPrefixOf_append_right n (c :: rest) t hx
        exact hpre2 (by simpa using this)
      rw [findInfixIdx_cons, if_neg hpre, Option.isSome_map'] at hs
      exact ih hs

/-- Substring containment survives appending on the right. -/
theorem strIncludes_append_left (p s sub : String)
    (h : strIncludes p sub = true) : strIncludes (p ++ s) sub = true := by
  have hd : (p ++ s).data = p.data ++ s.data := rfl
  simp only [strIncludes, hd]
  exact findInfixIdx_append_isSome p.data s.data sub.data h

/-- Projection equation: the draft's priority field. -/
theorem convert_priority (env : JsEnv) (raw : AtlasAppointment) :
    (convertAtlasToAppointment env raw).priority
      = if isHospitalAppointment raw then Priority.high
        else mapTypeToPriority (raw.type.getD "") := rfl

/-- Projection equation: the draft's reminder field. -/
theorem convert_reminder (env : JsEnv) (raw : AtlasAppointment) :
    (convertAtlasToAppointment env raw).reminder_minutes_before
      = reminderValue raw := rfl

/-- Projection equation: the draft's description field. -/
theorem convert_description (env : JsEnv) (raw : AtlasAppointment) :
    (convertAtlasToAppointment env raw).description
      = (if String.intercalate " | " (descriptionParts raw) == "" then none
         else some (String.intercalate " | " (descriptionParts raw))) := rfl

/-- Projection equation: the draft's start instant. -/
theorem convert_start (env : JsEnv) (raw : AtlasAppointment) :
    (convertAtlasToAppointment env raw).start_at
      = (env.parseDate
          (raw.date.getD env.isoDateOfNow ++ "T" ++ raw.time.getD "09:00")).getD
        env.now := rfl

/-- Projection equation: the draft's end instant. -/
theorem convert_end (env : JsEnv) (raw : AtlasAppointment) :
    (convertAtlasToAppointment env raw).end_at
      = match raw.end_time with
        | some et =>
          if et != "" then
            env.parseDate (raw.date.getD env.isoDateOfNow ++ "T" ++ et)
          else none
        | none => none := rfl

/-- C1: for every raw appointment item, if the medical classification holds
(the case-normalized concatenation of title, notes and location contains one
of the fixed medical keywords, or the raw category field contains the
substring "medical"), the normalized draft's priority is "high" regardless of
what the raw category field would otherwise map to, and, when the raw
reminder-lead value is absent, the draft's reminder lead minutes is 120. -/
theorem c1_medical_priority_and_reminder (env : JsEnv) (raw : AtlasAppointment)
    (h : isHospitalAppointment raw = true) :
    (convertAtlasToAppointment env raw).priority = Priority.high ∧
    (raw.reminder_minutes_before = none →
      (convertAtlasToAppointment env raw).reminder_minutes_before = some 120) := by
  constructor
  · rw [convert_priority, if_pos h]
  · intro hn
    rw [convert_reminder]
    simp [reminderValue, hn, h]

/-- C1 witness: the specification's medical scenario item is classified
medical, and its draft has priority high with reminder lead 120. -/
theorem c1_medical_priority_and_reminder_witness :
    isHospitalAppointment rawMedical = true ∧
    (convertAtlasToAppointment sampleEnv rawMedical).priority = Priority.high ∧
    (convertAtlasToAppointment sampleEnv rawMedical).reminder_minutes_before
      = some 120 :=
  ⟨by decide,
   (c1_medical_priority_and_reminder sampleEnv rawMedical (by decide)).1,
   (c1_medical_priority_and_reminder sampleEnv rawMedical (by decide)).2 rfl⟩

/-- C9 counterexample: a negative raw `reminder_minutes_before` reaches the
draft unchanged, so a present draft reminder lead can be negative,
contradicting the claimed invariant. -/
theorem c9_counterexample :
    (convertAtlasToAppointment sampleEnv rawNegReminder).reminder_minutes_before
      = some (-5) ∧
    ¬(∀ v : Int,
      (convertAtlasToAppointment sampleEnv rawNegReminder).reminder_minutes_before
        = some v → 0 ≤ v) :=
  ⟨by decide, fun h => absurd (h (-5) (by decide)) (by decide)⟩

/-- C9 amended: the draft's reminder lead equals the raw value whenever one
is present (negative raw values pass through unclamped); non-negativity is
guaranteed only when the raw value is absent, in which case the value, if
present at all, is the medical default 120. -/
theorem c9_amended_reminder (env : JsEnv) (raw : AtlasAppointment) :
    (raw.reminder_minutes_before = none →
      ∀ v, (convertAtlasToAppointment env raw).reminder_minutes_before = some v →
        0 ≤ v) ∧
    (∀ v, raw.reminder_minutes_before = some v →
      (convertAtlasToAppointment env raw).reminder_minutes_before = some v) := by
  constructor
  · intro hn v hv
    rw [convert_reminder] at hv
    simp only [reminderValue, hn] at hv
    by_cases hh : isHospitalAppointment raw = true
    · simp only [hh, if_true, Option.some.injEq] at hv
      omega
    · simp [hh] at hv
  · intro v hv
    rw [convert_reminder]
    simp [reminderValue, hv]

/-- C9 amended witness: for the medical item with absent raw reminder, the
draft's present reminder lead (120) is non-negative; and an explicit raw
value of 30 passes through. -/
theorem c9_amended_reminder_witness :
    (0 : Int) ≤ 120 ∧
    (convertAtlasToAppointment sampleEnv rawFull).reminder_minutes_before
      = some 30 :=
  ⟨(c9_amended_reminder sampleEnv rawMedical).1 rfl 120 (by decide),
   (c9_amended_reminder sampleEnv rawFull).2 30 rfl⟩

/-- C10: a raw `reminder_minutes_before` of 0 is kept as 0 in the draft (the
medical 120-minute default applies only to an absent value), and, because the
description step tests the reminder for truthiness, no reminder line is
appended: the description parts are exactly the basic and medical-suggestion
parts. -/
theorem c10_zero_reminder (env : JsEnv) (raw : AtlasAppointment)
    (h : raw.reminder_minutes_before = some 0) :
    (convertAtlasToAppointment env raw).reminder_minutes_before = some 0 ∧
    descriptionParts raw
      = basicParts raw ++ hospitalParts raw (isHospitalAppointment raw) := by
  have hv : reminderValue raw = some 0 := by simp [reminderValue, h]
  constructor
  · rw [convert_reminder, hv]
  · simp [descriptionParts, reminderParts, hv, jsTruthyI]

/-- C10 witness: a medical item with an explicit zero reminder keeps 0 and
gains no reminder line. -/
theorem c10_zero_reminder_witness :
    (convertAtlasToAppointment sampleEnv rawMedicalZero).reminder_minutes_before
      = some 0 ∧
    descriptionParts rawMedicalZero
      = basicParts rawMedicalZero
        ++ hospitalParts rawMedicalZero (isHospitalAppointment rawMedicalZero) :=
  c10_zero_reminder sampleEnv rawMedicalZero rfl

/-- C3: for every raw item the draft's start instant is the parse of the
composed date-time — missing date defaulting to today's date, missing start
time to "09:00" — or the current instant when that parse fails; and an end
instant is present exactly when a (non-empty) raw end time was supplied and
composes with the same date into a parseable instant. -/
theorem c3_start_end_timestamps (env : JsEnv) (raw : AtlasAppointment) :
    (raw.date = none → raw.time = none →
      (convertAtlasToAppointment env raw).start_at
        = (env.parseDate (env.isoDateOfNow ++ "T" ++ "09:00")).getD env.now) ∧
    (env.parseDate
        (raw.date.getD env.isoDateOfNow ++ "T" ++ raw.time.getD "09:00") = none →
      (convertAtlasToAppointment env raw).start_at = env.now) ∧
    (∀ t, env.parseDate
        (raw.date.getD env.isoDateOfNow ++ "T" ++ raw.time.getD "09:00") = some t →
      (convertAtlasToAppointment env raw).start_at = t) ∧
    (∀ e, (convertAtlasToAppointment env raw).end_at = some e ↔
      ∃ et, raw.end_time = some et ∧ et ≠ "" ∧
        env.parseDate (raw.date.getD env.isoDateOfNow ++ "T" ++ et) = some e) := by
  refine ⟨?_, ?_, ?_, ?_⟩
  · intro hd ht
    rw [convert_start, hd, ht]
    rfl
  · intro hp
    rw [convert_start, hp]
    rfl
  · intro t hp
    rw [convert_start, hp]
    rfl
  · intro e
    rw [convert_end]
    cases hend : raw.end_time with
    | none => simp
    | some et =>
      constructor
      · intro h
        by_cases he : et = ""
        · subst he
          simp at h
        · have hbe : (et != "") = true := by simpa using he
          refine ⟨et, rfl, he, ?_⟩
          simpa [hbe] using h
      · rintro ⟨et', h1, h2, h3⟩
        cases h1
        have hbe : (et != "") = true := by simpa using h2
        simpa [hbe] using h3

/-- C3 witness: a concrete item whose date-time parses to a known instant and
whose end time parses to another. -/
theorem c3_start_end_timestamps_witness :
    (convertAtlasToAppointment sampleEnv rawMedical).start_at = 1747067400000 ∧
    (convertAtlasToAppointment sampleEnv rawMedical).end_at = some 1747072800000 :=
  ⟨(c3_start_end_timestamps sampleEnv rawMedical).2.2.1 1747067400000 rfl,
   ((c3_start_end_timestamps sampleEnv rawMedical).2.2.2 1747072800000).mpr
     ⟨"18:00", rfl, by decide, rfl⟩⟩

/-- Membership-free characterisation of a vanishing conditional singleton. -/
theorem ite_singleton_nil (c : Bool) (x : String) :
    ((if c = true then [x] else []) = []) ↔ c = false := by
  cases c <;> simp

/-- The medical-suggestion block vanishes exactly for non-medical items. -/
theorem hospitalParts_nil (raw : AtlasAppointment) (b : Bool) :
    hospitalParts raw b = [] ↔ b = false := by
  cases b <;> simp [hospitalParts]

/-- The reminder line vanishes exactly for a falsy reminder value. -/
theorem reminderParts_nil (r : Option Int) :
    reminderParts r = [] ↔ jsTruthyI r = false := by
  by_cases h : jsTruthyI r = true
  · simp [reminderParts, h]
  · simp only [Bool.not_eq_true] at h
    simp [reminderParts, h]

/-- The draft's description is absent exactly when no sub-part contributed. -/
theorem description_none_iff (env : JsEnv) (raw : AtlasAppointment) :
    (convertAtlasToAppointment env raw).description = none ↔
      descriptionParts raw = [] := by
  rw [convert_description]
  by_cases h : descriptionParts raw = []
  · rw [h]
    simp [String.intercalate]
  · have hne := intercalate_ne_empty (descriptionParts raw) h (descriptionParts_ne raw)
    have hbe : (String.intercalate " | " (descriptionParts raw) == "") = false :=
      beq_eq_false_iff_ne.mpr hne
    simp [hbe, h]

/-- The sub-part list is empty exactly when every source is empty, the item
is not medical, and the reminder value is falsy. -/
theorem descriptionParts_nil_iff (raw : AtlasAppointment) :
    descriptionParts raw = [] ↔
      (jsTruthyS raw.notes = false ∧ jsTruthyS raw.person = false ∧
       jsTruthyL raw.actions_before = false ∧ jsTruthyL raw.actions_after = false ∧
       recurrenceParts raw.recurrence = [] ∧ jsTruthyL raw.tags = false ∧
       isHospitalAppointment raw = false ∧
       jsTruthyI (reminderValue raw) = false) := by
  simp only [descriptionParts, basicParts, List.append_assoc, List.append_eq_nil,
    ite_singleton_nil, hospitalParts_nil, reminderParts_nil]

/-- C5: the composed description is built from the fixed ordered sub-parts,
each appended only when its source is non-empty, joined with a visible
separator; it is entirely absent exactly when no sub-part contributes.  For
the recurrence-only item the description is exactly the recurrence summary
line, and a fully-populated non-medical item shows every sub-part in the
fixed order. -/
theorem c5_description_composition (env : JsEnv) (raw : AtlasAppointment) :
    ((convertAtlasToAppointment env raw).description = none ↔
      (jsTruthyS raw.notes = false ∧ jsTruthyS raw.person = false ∧
       jsTruthyL raw.actions_before = false ∧ jsTruthyL raw.actions_after = false ∧
       recurrenceParts raw.recurrence = [] ∧ jsTruthyL raw.tags = false ∧
       isHospitalAppointment raw = false ∧
       jsTruthyI (reminderValue raw) = false)) ∧
    ((convertAtlasToAppointment env raw).description
      = if descriptionParts raw = [] then none
        else some (String.intercalate " | " (descriptionParts raw))) ∧
    (convertAtlasToAppointment sampleEnv rawRecurOnly).description
      = some "تكرار: weekly كل 2 (sat,mon)" ∧
    (convertAtlasToAppointment sampleEnv rawFull).description
      = some "n | مع: p | قبل: a | بعد: b | تكرار: weekly كل 2 (sat) | وسوم: t1, t2 | تذكير قبل: 30 دقيقة" := by
  refine ⟨(description_none_iff env raw).trans (descriptionParts_nil_iff raw),
    ?_, by decide, by decide⟩
  by_cases h : descriptionParts raw = []
  · rw [if_pos h]
    exact (description_none_iff env raw).mpr h
  · rw [if_neg h, convert_description]
    have hne := intercalate_ne_empty _ h (descriptionParts_ne raw)
    simp [beq_eq_false_iff_ne.mpr hne]

/-- C2 counterexample: on the assistant text "x \x7by\x7d z" both parse
attempts fail (no fence, so the candidate is the full text; the direct parse
fails; the brace fallback finds "\x7by\x7d" and its parse fails too), yet the
extractor surfaces the parser's own syntax error, not the unparseable-response
error. -/
theorem c2_counterexample :
    (∃ m, jpAllFail ((fenceMatch "x \x7by\x7d z").getD "x \x7by\x7d z")
        = .error m) ∧
    (∃ sub m, braceMatch ((fenceMatch "x \x7by\x7d z").getD "x \x7by\x7d z")
        = some sub ∧ jpAllFail sub = .error m) ∧
    extractAppointmentsJSON jpAllFail "x \x7by\x7d z"
      = .error ("SyntaxError: Unexpected token in \x7by\x7d") ∧
    "SyntaxError: Unexpected token in \x7by\x7d" ≠ unparseableMsg :=
  ⟨⟨"SyntaxError: Unexpected token in x \x7by\x7d z", rfl⟩,
   ⟨"\x7by\x7d", "SyntaxError: Unexpected token in \x7by\x7d", rfl, rfl⟩,
   rfl, by decide⟩

/-- C2 amended: when the direct parse of the candidate (the first fenced
block's inner content if a fence is present, else the full text) fails, the
extractor fails with the unparseable-response error exactly when the
candidate holds no brace-delimited substring; when a brace-delimited
substring exists but its parse also fails, that parse's own error propagates
instead. -/
theorem c2_amended_unparseable (jp : String → Except String Json)
    (raw m : String)
    (hfail : jp ((fenceMatch raw).getD raw) = .error m) :
    (braceMatch ((fenceMatch raw).getD raw) = none →
      extractAppointmentsJSON jp raw = .error unparseableMsg) ∧
    (∀ sub m2, braceMatch ((fenceMatch raw).getD raw) = some sub →
      jp sub = .error m2 →
      extractAppointmentsJSON jp raw = .error m2) := by
  constructor
  · intro hb
    simp [extractAppointmentsJSON, hfail, hb]
  · intro sub m2 hb hsub
    simp [extractAppointmentsJSON, hfail, hb, hsub]

/-- C2 amended witness: on a brace-free, fence-free unparseable text the
extractor yields the unparseable-response error. -/
theorem c2_amended_unparseable_witness :
    extractAppointmentsJSON jpAllFail "no json here" = .error unparseableMsg :=
  (c2_amended_unparseable jpAllFail "no json here"
    "SyntaxError: Unexpected token in no json here" rfl).1 rfl

/-- C4: a non-success response is classified as the rate-limit failure
(carrying the body) exactly when the status is 429 or the lowercased body
contains "too many requests" or "only request this after", and as the generic
transport failure (carrying status and body) otherwise; the two messages are
always distinct; the orchestrator maps the rate-limit failure to the
wait-and-retry outcome, while a 500 response's failure is surfaced verbatim
as the generic outcome. -/
theorem c4_rate_limit_classification :
    (∀ resp : HttpResponse, ¬(200 ≤ resp.status ∧ resp.status ≤ 299) →
      ((resp.status = 429
          ∨ strIncludes (jsLower resp.bodyText) "too many requests" = true
          ∨ strIncludes (jsLower resp.bodyText) "only request this after" = true) →
        sendToAtlasResponse resp = .error (rateLimitMsg resp.bodyText)) ∧
      (¬(resp.status = 429
          ∨ strIncludes (jsLower resp.bodyText) "too many requests" = true
          ∨ strIncludes (jsLower resp.bodyText) "only request this after" = true) →
        sendToAtlasResponse resp = .error (apiErrorMsg resp.status resp.bodyText))) ∧
    (∀ status body, rateLimitMsg body ≠ apiErrorMsg status body) ∧
    (∀ body, isRateLimitError (rateLimitMsg body) = true) ∧
    (∀ jp, handleAiSubmit "نص" (.error (rateLimitMsg "too many requests")) jp
        = .failure waitRetryAiError aiModalTitle waitRetryModalMsg) ∧
    (∀ jp, handleAiSubmit "نص" (.error (apiErrorMsg 500 "Internal Server Error")) jp
        = .failure (apiErrorMsg 500 "Internal Server Error") aiModalTitle
            (apiErrorMsg 500 "Internal Server Error")) := by
  refine ⟨?_, ?_, ?_, ?_, ?_⟩
  · intro resp hok
    constructor
    · intro hc
      simp [sendToAtlasResponse, hok, hc]
    · intro hc
      simp [sendToAtlasResponse, hok, hc]
  · intro status body h
    have h1 : (rateLimitMsg body).data.head? = some 'ي' :=
      data_head_append _ body 'ي' (by decide)
    have h2 : (apiErrorMsg status body).data.head? = some 'A' :=
      data_head_append _ body 'A' (data_head_append _ " " 'A'
        (data_head_append "Atlas API error: " (toString status) 'A' (by decide)))
    rw [h] at h1
    rw [h2] at h1
    exact absurd (Option.some.inj h1) (by decide)
  · intro body
    have h429 :
        strIncludes "يرجى الانتظار قليلًا ثم إعادة المحاولة (429): " "429" = true := by
      decide
    have hm := strIncludes_append_left
      "يرجى الانتظار قليلًا ثم إعادة المحاولة (429): " body "429" h429
    simp [isRateLimitError, rateLimitMsg, hm]
  · intro jp
    rfl
  · intro jp
    rfl

/-- C4 witness: the 429 scenario response is classified rate-limit and a
plain 500 response generic. -/
theorem c4_rate_limit_classification_witness :
    sendToAtlasResponse
        { status := 429, bodyText := "too many requests", assistantContent := none }
      = .error (rateLimitMsg "too many requests") ∧
    sendToAtlasResponse
        { status := 500, bodyText := "Internal Server Error", assistantContent := none }
      = .error (apiErrorMsg 500 "Internal Server Error") :=
  ⟨(c4_rate_limit_classification.1
      ⟨429, "too many requests", none⟩ (by decide)).1 (Or.inl rfl),
   (c4_rate_limit_classification.1
      ⟨500, "Internal Server Error", none⟩ (by decide)).2 (by decide)⟩

/-- C6: blank (whitespace-only) input yields the validation outcome
independently of any network response; a successfully parsed response whose
appointments array is empty or absent (including a null assistant content)
yields the no-appointments outcome, a returned message distinct from the
wait-and-retry and unparseable-response messages — not an escaping
exception. -/
theorem c6_validation_and_no_appointments :
    (∀ (t : String) (net : Except String (Option String))
        (jp : String → Except String Json),
      jsTrim t = "" → handleAiSubmit t net jp = .validationError emptyInputMsg) ∧
    (∀ (t content : String) (jp : String → Except String Json) (j : Json),
      jsTrim t ≠ "" → extractAppointmentsJSON jp content = .ok j →
      jsArrayOrEmpty (jsField j "appointments") = [] →
      handleAiSubmit t (.ok (some content)) jp
        = .failure noAppointmentsMsg aiModalTitle noAppointmentsMsg) ∧
    (∀ (t : String) (jp : String → Except String Json),
      jsTrim t ≠ "" → handleAiSubmit t (.ok none) jp
        = .failure noAppointmentsMsg aiModalTitle noAppointmentsMsg) ∧
    noAppointmentsMsg ≠ waitRetryAiError ∧
    noAppointmentsMsg ≠ unparseableMsg ∧
    isRateLimitError noAppointmentsMsg = false := by
  refine ⟨?_, ?_, ?_, by decide, by decide, by decide⟩
  · intro t net jp ht
    simp [handleAiSubmit, ht]
  · intro t content jp j ht hx hempty
    have htb : (jsTrim t == "") = false := beq_eq_false_iff_ne.mpr ht
    have hnr : isRateLimitError noAppointmentsMsg = false := by decide
    simp [handleAiSubmit, htb, hx, hempty, aiFailure, hnr, Except.map, Option.bind]
  · intro t jp ht
    have htb : (jsTrim t == "") = false := beq_eq_false_iff_ne.mpr ht
    have hnr : isRateLimitError noAppointmentsMsg = false := by decide
    simp [handleAiSubmit, htb, aiFailure, hnr, jsArrayOrEmpty]

/-- C6 witness: blank input is rejected up front; the fenced
empty-appointments response produces the no-appointments outcome. -/
theorem c6_validation_and_no_appointments_witness :
    handleAiSubmit "   " (.ok (some "irrelevant")) jpEmptyAppointments
      = .validationError emptyInputMsg ∧
    handleAiSubmit "موعد غدا"
        (.ok (some "Sure! ```json\n\x7b\"appointments\": []\x7d\n```"))
        jpEmptyAppointments
      = .failure noAppointmentsMsg aiModalTitle noAppointmentsMsg :=
  ⟨c6_validation_and_no_appointments.1 "   " (.ok (some "irrelevant"))
      jpEmptyAppointments (by decide),
   c6_validation_and_no_appointments.2.1 "موعد غدا"
      "Sure! ```json\n\x7b\"appointments\": []\x7d\n```" jpEmptyAppointments
      (Json.obj [("appointments", Json.arr [])]) (by decide) rfl rfl⟩

/-- The first-truthy view of one step of a `||` default chain. -/
theorem firstTruthy_cons_getD (a : Option String) (l : List (Option String))
    (d : String) :
    (firstTruthy (a :: l)).getD d = jsOrStrD a ((firstTruthy l).getD d) := by
  by_cases h : jsTruthyS a = true
  · cases a with
    | none => simp [jsTruthyS] at h
    | some s => simp [firstTruthy, jsOrStrD, h]
  · simp only [Bool.not_eq_true] at h
    simp [firstTruthy, jsOrStrD, h]

/-- A first truthy value is never the empty string. -/
theorem firstTruthy_some_ne (l : List (Option String)) (k : String)
    (h : firstTruthy l = some k) : k ≠ "" := by
  induction l with
  | nil => simp [firstTruthy] at h
  | cons a rest ih =>
    have he : firstTruthy (a :: rest)
        = if jsTruthyS a = true then a else firstTruthy rest := rfl
    by_cases ha : jsTruthyS a = true
    · rw [he, if_pos ha] at h
      rw [h] at ha
      simpa [jsTruthyS] using ha
    · rw [he, if_neg ha] at h
      exact ih h

/-- C7: both the credential and the endpoint URL are resolved as the first
truthy value of the four named configuration locations in their fixed order;
when no credential resolves, `sendToAtlas` fails with the configuration error
whatever the network would have answered; when one resolves, the request is
built with it; when no URL resolves, the fixed default endpoint is used
without failing. -/
theorem c7_config_resolution (vite node : Option (String → Option String)) :
    (resolveApiKey vite node
      = (firstTruthy (apiKeyNames.map (fun k => getEnvValue k vite node))).getD "") ∧
    (resolveUrl vite node
      = (firstTruthy (urlKeyNames.map (fun k => getEnvValue k vite node))).getD
          defaultAtlasUrl) ∧
    (firstTruthy (apiKeyNames.map (fun k => getEnvValue k vite node)) = none →
      ∀ t resp, sendToAtlas vite node t resp = .error configErrorMsg) ∧
    (∀ k, firstTruthy (apiKeyNames.map (fun k => getEnvValue k vite node)) = some k →
      ∀ t, sendToAtlasRequest vite node t
        = .ok { url := resolveUrl vite node, model := "openai/gpt-oss-20b",
                systemContent := systemPromptText,
                userContent := trimmedUserText t,
                maxTokens := 256, authBearer := k }) ∧
    (firstTruthy (urlKeyNames.map (fun k => getEnvValue k vite node)) = none →
      resolveUrl vite node = defaultAtlasUrl) := by
  have hks : resolveApiKey vite node
      = (firstTruthy (apiKeyNames.map (fun k => getEnvValue k vite node))).getD "" := by
    simp only [apiKeyNames, List.map_cons, List.map_nil, firstTruthy_cons_getD]
    rfl
  have hurl : resolveUrl vite node
      = (firstTruthy (urlKeyNames.map (fun k => getEnvValue k vite node))).getD
          defaultAtlasUrl := by
    simp only [urlKeyNames, List.map_cons, List.map_nil, firstTruthy_cons_getD]
    rfl
  refine ⟨hks, hurl, ?_, ?_, ?_⟩
  · intro hnone t resp
    have hk : resolveApiKey vite node = "" := by rw [hks, hnone]; rfl
    simp [sendToAtlas, sendToAtlasRequest, hk]
  · intro k hk t
    have hkey : resolveApiKey vite node = k := by rw [hks, hk]; rfl
    have hne : k ≠ "" := firstTruthy_some_ne _ k hk
    have hbe : (k == "") = false := beq_eq_false_iff_ne.mpr hne
    simp [sendToAtlasRequest, hkey, hbe]
  · intro hnone
    rw [hurl, hnone]
    rfl

/-- C7 witness: a tertiary-only environment resolves the credential at the
third tier with the default endpoint; a bare environment fails with the
configuration error before the (arbitrary) response is consulted. -/
theorem c7_config_resolution_witness :
    resolveApiKey none (some nodeEnvSample) = "sk-test" ∧
    resolveUrl none (some nodeEnvSample) = defaultAtlasUrl ∧
    sendToAtlas none none "نص" { status := 200, bodyText := "", assistantContent := none }
      = .error configErrorMsg :=
  ⟨((c7_config_resolution none (some nodeEnvSample)).1).trans rfl,
   ((c7_config_resolution none (some nodeEnvSample)).2.1).trans rfl,
   (c7_config_resolution none none).2.2.1 rfl "نص"
     { status := 200, bodyText := "", assistantContent := none }⟩

/-- JavaScript `t || ""` is the identity on strings. -/
theorem jsOrStrD_some_empty (t : String) : jsOrStrD (some t) "" = t := by
  by_cases h : t = ""
  · subst h
    rfl
  · have ht : jsTruthyS (some t) = true := by simpa [jsTruthyS] using h
    simp [jsOrStrD, ht]

/-- C8: the request carries exactly the first 2000 characters of the user
text: shorter text is passed unchanged, the truncation has length
`min 2000 (length)`, and the kept text is always a prefix of the original —
silent and deterministic, with no error path. -/
theorem c8_truncation (vite node : Option (String → Option String)) (t : String) :
    (∀ req, sendToAtlasRequest vite node t = .ok req →
      req.userContent = trimmedUserText t) ∧
    (t.length ≤ 2000 → trimmedUserText t = t) ∧
    (trimmedUserText t).length = min 2000 t.length ∧
    (∃ r, t = trimmedUserText t ++ r) := by
  have htu : trimmedUserText t = String.mk (t.data.take 2000) := by
    rw [trimmedUserText, jsOrStrD_some_empty]
    rfl
  refine ⟨?_, ?_, ?_, ?_⟩
  · intro req hreq
    simp only [sendToAtlasRequest] at hreq
    split at hreq
    · simp at hreq
    · cases hreq
      rfl
  · intro hlen
    rw [htu, List.take_of_length_le hlen]
  · rw [htu]
    exact List.length_take 2000 t.data
  · refine ⟨String.mk (t.data.drop 2000), ?_⟩
    rw [htu]
    exact congrArg String.mk (List.take_append_drop 2000 t.data).symm

/-- C8 witness: short text is unchanged, over-long text is cut to 2000
characters, and a concrete built request carries the truncated text. -/
theorem c8_truncation_witness :
    trimmedUserText "hello" = "hello" ∧
    (trimmedUserText (String.mk (List.replicate 2001 'a'))).length = 2000 ∧
    ({ url := defaultAtlasUrl, model := "openai/gpt-oss-20b",
       systemContent := systemPromptText, userContent := "hello",
       maxTokens := 256, authBearer := "vk" } : AtlasRequest).userContent
      = trimmedUserText "hello" :=
  ⟨(c8_truncation none none "hello").2.1 (by decide),
   ((c8_truncation none none (String.mk (List.replicate 2001 'a'))).2.2.1).trans
     (by
       show min 2000 (List.replicate 2001 'a').length = 2000
       rw [List.length_replicate]
       omega),
   (c8_truncation (some viteEnvSample) none "hello").1 _ rfl⟩

end Nabiuh
